import Mathlib

/-!
Verification of the msi-ec embedded-controller driver (src/msi-ec.c).

The driver is embedded shallowly: the EC register transport (the kernel
functions ec_read / ec_write) is an injected capability, modelled as a pair
of functions from addresses to results.  A failing call yields a negative
errno value, exactly as in the kernel.  Every sysfs show/store callback of
the driver is translated into a Lean function over this transport.  Store
callbacks additionally return the list of transport writes they attempted,
so that the theorems can speak about register state being left untouched.

The hardware constants of constants.h are not part of the source tree; the
spec treats them as external configuration data.  Functions therefore take
the relevant constants as parameters, and the few numeric values the spec
itself fixes (the basic fan speed base range, the lengths of the packed
date and time fields) are defined below as spec-modelled constants.
-/

/-- The EC register transport (external collaborator): a single-byte read
returns a byte or a negative errno, a single-byte write returns unit or a
negative errno.  This models the kernel functions ec_read and ec_write. -/
structure EC where
  read : Nat → Except Int Nat
  write : Nat → Nat → Except Int Unit

/-- Errno value EINVAL (the driver returns -EINVAL on validation errors). -/
def EINVAL : Int := 22

/-- Errno value ERANGE (kstrtou8 returns -ERANGE on numeric overflow). -/
def ERANGE : Int := 34

/-- Embedding of ec_read_seq from msi-ec.c: read len consecutive registers
starting at addr into a buffer, aborting with the first error.  The first
component is the returned status (0 on success, the negative errno of the
first failing read otherwise); the second component models the contents of
the caller-supplied buffer, i.e. the bytes written before the abort. -/
def ec_read_seq (ec : EC) : Nat → Nat → Int × List Nat
  | _, 0 => (0, [])
  | addr, len + 1 =>
    match ec.read addr with
    | Except.error e => (e, [])
    | Except.ok b =>
      let r := ec_read_seq ec (addr + 1) len
      (r.1, b :: r.2)

/-- Modelled from the spec: MSI_EC_FW_VERSION_LENGTH lives in constants.h,
which is not under src/; the spec only states that the firmware version is
a fixed-length ASCII field, so a representative small length is used. -/
def MSI_EC_FW_VERSION_LENGTH : Nat := 12

/-- Modelled from the spec: MSI_EC_FW_DATE_LENGTH lives in constants.h,
which is not under src/; the spec states the date field is the 8-character
text MMDDYYYY. -/
def MSI_EC_FW_DATE_LENGTH : Nat := 8

/-- Modelled from the spec: MSI_EC_FW_TIME_LENGTH lives in constants.h,
which is not under src/; the spec states the time field is the 8-character
text HH:MM:SS. -/
def MSI_EC_FW_TIME_LENGTH : Nat := 8

/-- Embedding of fw_version_show: a sequential read of the version field;
on failure the error is returned and the partially filled buffer is
discarded, on success the buffer contents are rendered. -/
def fw_version_show (ec : EC) (addr : Nat) : Except Int (List Nat) :=
  let r := ec_read_seq ec addr MSI_EC_FW_VERSION_LENGTH
  if r.1 < 0 then Except.error r.1 else Except.ok r.2

lemma ec_read_seq_all_ok (ec : EC) (g : Nat → Nat) :
    ∀ len addr, (∀ k, k < len → ec.read (addr + k) = Except.ok (g (addr + k))) →
      ec_read_seq ec addr len = (0, (List.range len).map (fun k => g (addr + k))) := by
  intro len
  induction len with
  | zero => intro addr h; simp [ec_read_seq]
  | succ n ih =>
    intro addr h
    have h0 : ec.read addr = Except.ok (g addr) := by
      have := h 0 (Nat.succ_pos n)
      rwa [Nat.add_zero] at this
    have hrest : ∀ k, k < n → ec.read (addr + 1 + k) = Except.ok (g (addr + 1 + k)) := by
      intro k hk
      have h2 := h (k + 1) (by omega)
      rwa [show addr + (k + 1) = addr + 1 + k by omega] at h2
    have hih := ih (addr + 1) hrest
    rw [List.range_succ_eq_map]
    simp only [ec_read_seq, h0, hih, List.map_cons, List.map_map, Nat.add_zero]
    congr 1
    congr 1
    refine List.map_congr_left ?_
    intro a _
    simp only [Function.comp]
    congr 1
    omega

lemma ec_read_seq_first_fault (ec : EC) (g : Nat → Nat) (e : Int) :
    ∀ j addr len, j < len →
      (∀ k, k < j → ec.read (addr + k) = Except.ok (g (addr + k))) →
      ec.read (addr + j) = Except.error e →
      (ec_read_seq ec addr len).1 = e := by
  intro j
  induction j with
  | zero =>
    intro addr len hlt hok hf
    obtain ⟨m, rfl⟩ : ∃ m, len = m + 1 := ⟨len - 1, by omega⟩
    rw [Nat.add_zero] at hf
    simp [ec_read_seq, hf]
  | succ i ih =>
    intro addr len hlt hok hf
    obtain ⟨m, rfl⟩ : ∃ m, len = m + 1 := ⟨len - 1, by omega⟩
    have h0 : ec.read addr = Except.ok (g addr) := by
      have := hok 0 (Nat.succ_pos i)
      rwa [Nat.add_zero] at this
    have hok2 : ∀ k, k < i → ec.read (addr + 1 + k) = Except.ok (g (addr + 1 + k)) := by
      intro k hk
      have h2 := hok (k + 1) (by omega)
      rwa [show addr + (k + 1) = addr + 1 + k by omega] at h2
    have hf2 : ec.read (addr + 1 + i) = Except.error e := by
      rwa [show addr + 1 + i = addr + (i + 1) by omega]
    have := ih (addr + 1) m (by omega) hok2 hf2
    simp [ec_read_seq, h0, this]

/-- C3: the sequential reader visits addresses addr, addr+1, ...,
addr+len-1 in ascending order (on full success the buffer holds exactly
the byte of address addr+k at index k); if the read of address addr+j is
the first to fault, the whole operation returns that fault, and the caller
fw_version_show returns the error without exposing any partial bytes. -/
theorem c3_sequential_reader (ec : EC) (g : Nat → Nat) (addr len j : Nat) (e : Int) :
    ((∀ k, k < len → ec.read (addr + k) = Except.ok (g (addr + k))) →
       ec_read_seq ec addr len = (0, (List.range len).map (fun k => g (addr + k))))
    ∧ (j < len →
       (∀ k, k < j → ec.read (addr + k) = Except.ok (g (addr + k))) →
       ec.read (addr + j) = Except.error e →
       (ec_read_seq ec addr len).1 = e)
    ∧ (j < MSI_EC_FW_VERSION_LENGTH →
       (∀ k, k < j → ec.read (addr + k) = Except.ok (g (addr + k))) →
       ec.read (addr + j) = Except.error e → e < 0 →
       fw_version_show ec addr = Except.error e) := by
  refine ⟨fun h => ec_read_seq_all_ok ec g len addr h, ?_, ?_⟩
  · intro hlt hok hf
    exact ec_read_seq_first_fault ec g e j addr len hlt hok hf
  · intro hlt hok hf hneg
    have h1 : (ec_read_seq ec addr MSI_EC_FW_VERSION_LENGTH).1 = e :=
      ec_read_seq_first_fault ec g e j addr MSI_EC_FW_VERSION_LENGTH hlt hok hf
    simp [fw_version_show, h1, hneg]

/-- Transport used by the witness of C3: addresses 0, 1, 2 read
successfully, address 3 faults with errno -5. -/
def ecSeqW : EC where
  read := fun a => if a < 3 then Except.ok (a + 10) else Except.error (-5)
  write := fun _ _ => Except.ok ()

theorem c3_sequential_reader_witness :
    (ec_read_seq ecSeqW 0 MSI_EC_FW_VERSION_LENGTH).1 = -5
    ∧ fw_version_show ecSeqW 0 = Except.error (-5)
    ∧ ec_read_seq ecSeqW 0 3 = (0, [10, 11, 12]) := by
  have h := c3_sequential_reader ecSeqW (fun a => a + 10) 0 MSI_EC_FW_VERSION_LENGTH 3 (-5)
  have hok : ∀ k, k < 3 → ecSeqW.read (0 + k) = Except.ok ((fun a => a + 10) (0 + k)) := by
    intro k hk
    show (if 0 + k < 3 then Except.ok (0 + k + 10) else Except.error (-5)) = _
    rw [if_pos (by omega)]
  have hf : ecSeqW.read (0 + 3) = Except.error (-5) := rfl
  refine ⟨h.2.1 (by decide) hok hf, h.2.2 (by decide) hok hf (by decide), ?_⟩
  have h2 := c3_sequential_reader ecSeqW (fun a => a + 10) 0 3 3 (-5)
  have h3 := h2.1 hok
  simpa using h3

/-- Modelled from the spec: MSI_EC_CPU_BASIC_FAN_SPEED_BASE_MIN lives in
constants.h, which is not under src/; the spec fixes the basic fan speed
base range as MIN = 0x00. -/
def MSI_EC_CPU_BASIC_FAN_SPEED_BASE_MIN : Nat := 0x00

/-- Modelled from the spec: MSI_EC_CPU_BASIC_FAN_SPEED_BASE_MAX lives in
constants.h, which is not under src/; the spec fixes the basic fan speed
base range as MAX = 0x96 (150 decimal). -/
def MSI_EC_CPU_BASIC_FAN_SPEED_BASE_MAX : Nat := 0x96

/-- Embedding of cpu_basic_fan_speed_show: read the fan speed register,
reject (EINVAL) physical bytes outside the base range, otherwise scale the
byte linearly to a percentage.  All C arithmetic here happens after
promotion to int on values at most 100 * 150, so plain Nat arithmetic with
truncating division is exact. -/
def cpu_basic_fan_speed_show (ec : EC) (addr : Nat) : Except Int Nat :=
  match ec.read addr with
  | Except.error e => Except.error e
  | Except.ok rdata =>
    if rdata < MSI_EC_CPU_BASIC_FAN_SPEED_BASE_MIN
        ∨ rdata > MSI_EC_CPU_BASIC_FAN_SPEED_BASE_MAX then Except.error (-EINVAL)
    else Except.ok (100 * (rdata - MSI_EC_CPU_BASIC_FAN_SPEED_BASE_MIN) /
      (MSI_EC_CPU_BASIC_FAN_SPEED_BASE_MAX - MSI_EC_CPU_BASIC_FAN_SPEED_BASE_MIN))

/-- Embedding of cpu_basic_fan_speed_store: the sysfs input is parsed by
kstrtou8 (numeric values above 255 fail with -ERANGE), values above 100
are rejected with -EINVAL, and the accepted percentage is scaled back to a
physical byte and written.  The second component is the list of transport
writes attempted (address, byte). -/
def cpu_basic_fan_speed_store (ec : EC) (addr wdata count : Nat) : Int × List (Nat × Nat) :=
  if wdata > 255 then (-ERANGE, [])
  else if wdata > 100 then (-EINVAL, [])
  else
    let w := (wdata * (MSI_EC_CPU_BASIC_FAN_SPEED_BASE_MAX -
        MSI_EC_CPU_BASIC_FAN_SPEED_BASE_MIN) +
      100 * MSI_EC_CPU_BASIC_FAN_SPEED_BASE_MIN) / 100
    match ec.write addr w with
    | Except.error e => (e, [(addr, w)])
    | Except.ok _ => ((count : Int), [(addr, w)])

lemma fan_codec_arith : ∀ p, p < 101 →
    (¬(p * 150 / 100 > 150)
      ∧ 100 * (p * 150 / 100) / 150 ≤ p
      ∧ p ≤ 100 * (p * 150 / 100) / 150 + 1) := by
  decide

/-- C1: for every percentage p in 0..100, writing p through the basic fan
speed codec stores the byte (p * (MAX - MIN) + 100 * MIN) / 100, and
reading that byte back yields a percentage within 1 of p; every input
above 100 is rejected before any write reaches the transport (with
-EINVAL for parseable bytes, -ERANGE for values kstrtou8 cannot fit). -/
theorem c1_scaled_range_roundtrip (ec : EC) (addr p count : Nat) :
    (p ≤ 100 →
      ec.read addr = Except.ok ((p * (MSI_EC_CPU_BASIC_FAN_SPEED_BASE_MAX -
          MSI_EC_CPU_BASIC_FAN_SPEED_BASE_MIN) +
        100 * MSI_EC_CPU_BASIC_FAN_SPEED_BASE_MIN) / 100) →
      ∃ d, cpu_basic_fan_speed_show ec addr = Except.ok d ∧ d ≤ p ∧ p ≤ d + 1)
    ∧ (∀ m, 100 < m →
        (cpu_basic_fan_speed_store ec addr m count).1 < 0
        ∧ (cpu_basic_fan_speed_store ec addr m count).2 = []
        ∧ (m ≤ 255 → cpu_basic_fan_speed_store ec addr m count = (-EINVAL, []))) := by
  constructor
  · intro hp hread
    have ha := fan_codec_arith p (by omega)
    refine ⟨100 * (p * 150 / 100) / 150, ?_, ha.2.1, ha.2.2⟩
    simp only [cpu_basic_fan_speed_show, hread,
      MSI_EC_CPU_BASIC_FAN_SPEED_BASE_MIN, MSI_EC_CPU_BASIC_FAN_SPEED_BASE_MAX]
    norm_num
    intro hcontra
    exact absurd hcontra ha.1
  · intro m hm
    by_cases h255 : m > 255
    · simp [cpu_basic_fan_speed_store, h255, ERANGE]
    · have : ¬ m > 255 := h255
      simp [cpu_basic_fan_speed_store, this, hm, EINVAL]

/-- Transport used by the witness of C1: every read returns the byte 0x4B
(the encoding of 75 percent is not needed; 0x4B is the encoding of 50). -/
def ecC1W : EC where
  read := fun _ => Except.ok 75
  write := fun _ _ => Except.ok ()

theorem c1_scaled_range_roundtrip_witness :
    (∃ d, cpu_basic_fan_speed_show ecC1W 0 = Except.ok d ∧ d ≤ 50 ∧ 50 ≤ d + 1)
    ∧ (cpu_basic_fan_speed_store ecC1W 0 101 4).1 < 0
    ∧ cpu_basic_fan_speed_store ecC1W 0 101 4 = (-EINVAL, []) := by
  have h := c1_scaled_range_roundtrip ecC1W 0 50 4
  refine ⟨h.1 (by decide) rfl, (h.2 101 (by decide)).1, (h.2 101 (by decide)).2.2 (by decide)⟩

/-- Transport used by C8: the fan speed register holds the byte 0x4B and
writes succeed. -/
def ecC8 : EC where
  read := fun _ => Except.ok 0x4B
  write := fun _ _ => Except.ok ()

/-- C8: with base range [0x00, 0x96], reading a stored physical byte 0x4B
through the basic fan speed codec yields 50 percent, and storing the
logical value 50 writes the physical byte 0x4B back to the register. -/
theorem c8_end_to_end_fan_speed (addr count : Nat) :
    MSI_EC_CPU_BASIC_FAN_SPEED_BASE_MIN = 0x00
    ∧ MSI_EC_CPU_BASIC_FAN_SPEED_BASE_MAX = 0x96
    ∧ cpu_basic_fan_speed_show ecC8 addr = Except.ok 50
    ∧ cpu_basic_fan_speed_store ecC8 addr 50 count = ((count : Int), [(addr, 0x4B)]) := by
  exact ⟨rfl, rfl, rfl, rfl⟩

/-- Embedding of charge_control_threshold_show: read the charge control
register and print rdata - offset.  Both operands are u8, so in C the
subtraction happens after promotion to int; the result is an Int and may
be negative. -/
def charge_control_threshold_show (ec : EC) (addr offset : Nat) : Except Int Int :=
  match ec.read addr with
  | Except.error e => Except.error e
  | Except.ok rdata => Except.ok ((rdata : Int) - (offset : Int))

/-- Embedding of charge_control_threshold_store: parse the input with
kstrtou8 (values above 255 fail with -ERANGE), add the role offset with
u8 wraparound (wdata += offset), range-check against [MIN, MAX], and
write the physical byte.  The second component lists the transport writes
attempted. -/
def charge_control_threshold_store (ec : EC) (addr offset MIN MAX wdata count : Nat) :
    Int × List (Nat × Nat) :=
  if wdata > 255 then (-ERANGE, [])
  else
    let w := (wdata + offset) % 256
    if w < MIN ∨ w > MAX then (-EINVAL, [])
    else
      match ec.write addr w with
      | Except.error e => (e, [(addr, w)])
      | Except.ok _ => ((count : Int), [(addr, w)])

/-- C2: for a battery charge threshold with role offset such that every
legal logical value fits in one physical byte after the offset is applied
(the spec invariant physical = logical + offset), a store of v in [0,100]
succeeds exactly when v + offset lies in [MIN, MAX], and when it does, the
show operation applied to the stored byte returns exactly v. -/
theorem c2_offset_threshold_codec (ec : EC) (addr offset MIN MAX v count : Nat)
    (hv : v ≤ 100) (hoff : offset + 100 ≤ 255)
    (hw : ec.write addr (v + offset) = Except.ok ())
    (hr : ec.read addr = Except.ok (v + offset)) :
    ((charge_control_threshold_store ec addr offset MIN MAX v count).1 = (count : Int)
      ↔ (MIN ≤ v + offset ∧ v + offset ≤ MAX))
    ∧ (MIN ≤ v + offset → v + offset ≤ MAX →
        charge_control_threshold_show ec addr offset = Except.ok (v : Int)) := by
  have h255 : ¬ v > 255 := by omega
  have hmod : (v + offset) % 256 = v + offset := Nat.mod_eq_of_lt (by omega)
  constructor
  · by_cases hin : (v + offset) % 256 < MIN ∨ (v + offset) % 256 > MAX
    · have hnot : ¬ (MIN ≤ v + offset ∧ v + offset ≤ MAX) := by
        rw [hmod] at hin; omega
      simp only [charge_control_threshold_store, if_neg h255, if_pos hin]
      constructor
      · intro hc
        exfalso
        have hcc : (-EINVAL : Int) = (count : Int) := hc
        rw [EINVAL] at hcc
        omega
      · intro hc; exact absurd hc hnot
    · have hrange : MIN ≤ v + offset ∧ v + offset ≤ MAX := by
        rw [hmod] at hin; omega
      have hcond2 : ¬ (v + offset < MIN ∨ v + offset > MAX) := by omega
      simp only [charge_control_threshold_store, if_neg h255, hmod, hw]
      rw [if_neg hcond2]
      simpa using hrange
  · intro h1 h2
    simp only [charge_control_threshold_show, hr]
    congr 1
    push_cast
    ring

/-- Transport used by the witness of C2: the charge control register holds
the byte 188 = 50 + 138 and writes succeed. -/
def ecC2W : EC where
  read := fun _ => Except.ok 188
  write := fun _ _ => Except.ok ()

theorem c2_offset_threshold_codec_witness :
    ((charge_control_threshold_store ecC2W 0 138 138 228 50 1).1 = ((1 : Nat) : Int)
      ↔ (138 ≤ 50 + 138 ∧ 50 + 138 ≤ 228))
    ∧ charge_control_threshold_show ecC2W 0 138 = Except.ok ((50 : Nat) : Int) := by
  have h := c2_offset_threshold_codec ecC2W 0 138 138 228 50 1
    (by decide) (by decide) rfl rfl
  exact ⟨h.1, h.2 (by decide) (by decide)⟩

/-- The result a closed-enumeration show callback renders: a named
logical value, or the explicit unknown rendering carrying the raw byte. -/
inductive Logical where
  | val (s : String)
  | unknown (raw : Nat)
deriving DecidableEq

/-- Embedding of the streq macro of msi-ec.c: a string matches a name if
it equals it exactly or equals it followed by one newline. -/
def streq (x y : String) : Bool :=
  decide (x = y) || decide (x = y ++ "\n")

/-- The int status code of a transport write, as ec_write returns it in C:
0 on success, the negative errno on failure. -/
def ec_write_code (ec : EC) (addr v : Nat) : Int :=
  match ec.write addr v with
  | Except.ok _ => 0
  | Except.error e => e

/-- One conditional write step of an enumeration store callback: if the
input matched this logical name (cond), overwrite the running result with
the status of writing the corresponding code byte and record the write;
otherwise keep the previous result.  This mirrors the repeated statement
pattern: if (streq(buf, name)) result = ec_write(address, code). -/
def tryWrite (ec : EC) (addr : Nat) (cond : Bool) (v : Nat)
    (r : Int × List (Nat × Nat)) : Int × List (Nat × Nat) :=
  if cond then (ec_write_code ec addr v, r.2 ++ [(addr, v)]) else r

/-- The tail of every store callback: if the running result is negative,
return it, else return count.  The write trace is passed through. -/
def finishStore (r : Int × List (Nat × Nat)) (count : Nat) : Int × List (Nat × Nat) :=
  if r.1 < 0 then r else ((count : Int), r.2)

/-- Embedding of webcam_show: two known codes, unknown otherwise. -/
def webcam_show (ec : EC) (addr c_on c_off : Nat) : Except Int Logical :=
  match ec.read addr with
  | Except.error e => Except.error e
  | Except.ok rdata =>
    if rdata = c_on then Except.ok (Logical.val "on")
    else if rdata = c_off then Except.ok (Logical.val "off")
    else Except.ok (Logical.unknown rdata)

/-- Embedding of webcam_store. -/
def webcam_store (ec : EC) (addr c_on c_off : Nat) (buf : String) (count : Nat) :
    Int × List (Nat × Nat) :=
  finishStore
    (tryWrite ec addr (streq buf "off") c_off
      (tryWrite ec addr (streq buf "on") c_on (-EINVAL, []))) count

/-- Embedding of fn_key_show. -/
def fn_key_show (ec : EC) (addr c_left c_right : Nat) : Except Int Logical :=
  match ec.read addr with
  | Except.error e => Except.error e
  | Except.ok rdata =>
    if rdata = c_left then Except.ok (Logical.val "left")
    else if rdata = c_right then Except.ok (Logical.val "right")
    else Except.ok (Logical.unknown rdata)

/-- Embedding of fn_key_store. -/
def fn_key_store (ec : EC) (addr c_left c_right : Nat) (buf : String) (count : Nat) :
    Int × List (Nat × Nat) :=
  finishStore
    (tryWrite ec addr (streq buf "right") c_right
      (tryWrite ec addr (streq buf "left") c_left (-EINVAL, []))) count

/-- Embedding of win_key_show. -/
def win_key_show (ec : EC) (addr c_left c_right : Nat) : Except Int Logical :=
  match ec.read addr with
  | Except.error e => Except.error e
  | Except.ok rdata =>
    if rdata = c_left then Except.ok (Logical.val "left")
    else if rdata = c_right then Except.ok (Logical.val "right")
    else Except.ok (Logical.unknown rdata)

/-- Embedding of win_key_store. -/
def win_key_store (ec : EC) (addr c_left c_right : Nat) (buf : String) (count : Nat) :
    Int × List (Nat × Nat) :=
  finishStore
    (tryWrite ec addr (streq buf "right") c_right
      (tryWrite ec addr (streq buf "left") c_left (-EINVAL, []))) count

/-- Embedding of battery_mode_show: three known codes. -/
def battery_mode_show (ec : EC) (addr c_max c_med c_min : Nat) : Except Int Logical :=
  match ec.read addr with
  | Except.error e => Except.error e
  | Except.ok rdata =>
    if rdata = c_max then Except.ok (Logical.val "max")
    else if rdata = c_med then Except.ok (Logical.val "medium")
    else if rdata = c_min then Except.ok (Logical.val "min")
    else Except.ok (Logical.unknown rdata)

/-- Embedding of battery_mode_store. -/
def battery_mode_store (ec : EC) (addr c_max c_med c_min : Nat) (buf : String)
    (count : Nat) : Int × List (Nat × Nat) :=
  finishStore
    (tryWrite ec addr (streq buf "min") c_min
      (tryWrite ec addr (streq buf "medium") c_med
        (tryWrite ec addr (streq buf "max") c_max (-EINVAL, [])))) count

/-- Embedding of cooler_boost_show. -/
def cooler_boost_show (ec : EC) (addr c_on c_off : Nat) : Except Int Logical :=
  match ec.read addr with
  | Except.error e => Except.error e
  | Except.ok rdata =>
    if rdata = c_on then Except.ok (Logical.val "on")
    else if rdata = c_off then Except.ok (Logical.val "off")
    else Except.ok (Logical.unknown rdata)

/-- Embedding of cooler_boost_store. -/
def cooler_boost_store (ec : EC) (addr c_on c_off : Nat) (buf : String) (count : Nat) :
    Int × List (Nat × Nat) :=
  finishStore
    (tryWrite ec addr (streq buf "off") c_off
      (tryWrite ec addr (streq buf "on") c_on (-EINVAL, []))) count

/-- Embedding of shift_mode_show: four known codes. -/
def shift_mode_show (ec : EC) (addr c_perf c_bal c_eco c_off : Nat) : Except Int Logical :=
  match ec.read addr with
  | Except.error e => Except.error e
  | Except.ok rdata =>
    if rdata = c_perf then Except.ok (Logical.val "performance")
    else if rdata = c_bal then Except.ok (Logical.val "balanced")
    else if rdata = c_eco then Except.ok (Logical.val "eco")
    else if rdata = c_off then Except.ok (Logical.val "off")
    else Except.ok (Logical.unknown rdata)

/-- Embedding of shift_mode_store. -/
def shift_mode_store (ec : EC) (addr c_perf c_bal c_eco c_off : Nat) (buf : String)
    (count : Nat) : Int × List (Nat × Nat) :=
  finishStore
    (tryWrite ec addr (streq buf "off") c_off
      (tryWrite ec addr (streq buf "eco") c_eco
        (tryWrite ec addr (streq buf "balanced") c_bal
          (tryWrite ec addr (streq buf "performance") c_perf (-EINVAL, []))))) count

/-- Embedding of fan_mode_show: three known codes. -/
def fan_mode_show (ec : EC) (addr c_sil c_bas c_adv : Nat) : Except Int Logical :=
  match ec.read addr with
  | Except.error e => Except.error e
  | Except.ok rdata =>
    if rdata = c_sil then Except.ok (Logical.val "silent")
    else if rdata = c_bas then Except.ok (Logical.val "basic")
    else if rdata = c_adv then Except.ok (Logical.val "advanced")
    else Except.ok (Logical.unknown rdata)

/-- Embedding of fan_mode_store. -/
def fan_mode_store (ec : EC) (addr c_sil c_bas c_adv : Nat) (buf : String) (count : Nat) :
    Int × List (Nat × Nat) :=
  finishStore
    (tryWrite ec addr (streq buf "advanced") c_adv
      (tryWrite ec addr (streq buf "basic") c_bas
        (tryWrite ec addr (streq buf "silent") c_sil (-EINVAL, [])))) count

lemma streq_true_iff (x y : String) : streq x y = true ↔ (x = y ∨ x = y ++ "\n") := by
  simp [streq]

lemma streq_false (x y : String) (h1 : x ≠ y) (h2 : x ≠ y ++ "\n") : streq x y = false := by
  rw [Bool.eq_false_iff, Ne, streq_true_iff]
  rintro (h | h)
  · exact h1 h
  · exact h2 h

lemma finish_reject (count : Nat) : finishStore (-EINVAL, []) count = (-EINVAL, []) := by
  norm_num [finishStore, EINVAL]

/-- C4: for each of the seven closed-enumeration and toggle attributes,
once the transport read succeeds the show callback always produces a
result (it never faults), a physical byte outside the documented code set
is rendered as the explicit unknown result carrying the raw byte, and the
store callback rejects every input that is not a documented logical name
with -EINVAL before issuing any transport write. -/
theorem c4_enum_codecs (ec : EC) (addr r count : Nat) (buf : String)
    (w1 w2 f1 f2 k1 k2 b1 b2 b3 cb1 cb2 s1 s2 s3 s4 m1 m2 m3 : Nat) :
    (ec.read addr = Except.ok r → ∃ l, webcam_show ec addr w1 w2 = Except.ok l)
    ∧ (ec.read addr = Except.ok r → r ≠ w1 → r ≠ w2 →
        webcam_show ec addr w1 w2 = Except.ok (Logical.unknown r))
    ∧ (buf ≠ "on" → buf ≠ "on\n" → buf ≠ "off" → buf ≠ "off\n" →
        webcam_store ec addr w1 w2 buf count = (-EINVAL, []))
    ∧ (ec.read addr = Except.ok r → ∃ l, fn_key_show ec addr f1 f2 = Except.ok l)
    ∧ (ec.read addr = Except.ok r → r ≠ f1 → r ≠ f2 →
        fn_key_show ec addr f1 f2 = Except.ok (Logical.unknown r))
    ∧ (buf ≠ "left" → buf ≠ "left\n" → buf ≠ "right" → buf ≠ "right\n" →
        fn_key_store ec addr f1 f2 buf count = (-EINVAL, []))
    ∧ (ec.read addr = Except.ok r → ∃ l, win_key_show ec addr k1 k2 = Except.ok l)
    ∧ (ec.read addr = Except.ok r → r ≠ k1 → r ≠ k2 →
        win_key_show ec addr k1 k2 = Except.ok (Logical.unknown r))
    ∧ (buf ≠ "left" → buf ≠ "left\n" → buf ≠ "right" → buf ≠ "right\n" →
        win_key_store ec addr k1 k2 buf count = (-EINVAL, []))
    ∧ (ec.read addr = Except.ok r → ∃ l, battery_mode_show ec addr b1 b2 b3 = Except.ok l)
    ∧ (ec.read addr = Except.ok r → r ≠ b1 → r ≠ b2 → r ≠ b3 →
        battery_mode_show ec addr b1 b2 b3 = Except.ok (Logical.unknown r))
    ∧ (buf ≠ "max" → buf ≠ "max\n" → buf ≠ "medium" → buf ≠ "medium\n" →
        buf ≠ "min" → buf ≠ "min\n" →
        battery_mode_store ec addr b1 b2 b3 buf count = (-EINVAL, []))
    ∧ (ec.read addr = Except.ok r → ∃ l, cooler_boost_show ec addr cb1 cb2 = Except.ok l)
    ∧ (ec.read addr = Except.ok r → r ≠ cb1 → r ≠ cb2 →
        cooler_boost_show ec addr cb1 cb2 = Except.ok (Logical.unknown r))
    ∧ (buf ≠ "on" → buf ≠ "on\n" → buf ≠ "off" → buf ≠ "off\n" →
        cooler_boost_store ec addr cb1 cb2 buf count = (-EINVAL, []))
    ∧ (ec.read addr = Except.ok r → ∃ l, shift_mode_show ec addr s1 s2 s3 s4 = Except.ok l)
    ∧ (ec.read addr = Except.ok r → r ≠ s1 → r ≠ s2 → r ≠ s3 → r ≠ s4 →
        shift_mode_show ec addr s1 s2 s3 s4 = Except.ok (Logical.unknown r))
    ∧ (buf ≠ "performance" → buf ≠ "performance\n" → buf ≠ "balanced" →
        buf ≠ "balanced\n" → buf ≠ "eco" → buf ≠ "eco\n" → buf ≠ "off" → buf ≠ "off\n" →
        shift_mode_store ec addr s1 s2 s3 s4 buf count = (-EINVAL, []))
    ∧ (ec.read addr = Except.ok r → ∃ l, fan_mode_show ec addr m1 m2 m3 = Except.ok l)
    ∧ (ec.read addr = Except.ok r → r ≠ m1 → r ≠ m2 → r ≠ m3 →
        fan_mode_show ec addr m1 m2 m3 = Except.ok (Logical.unknown r))
    ∧ (buf ≠ "silent" → buf ≠ "silent\n" → buf ≠ "basic" → buf ≠ "basic\n" →
        buf ≠ "advanced" → buf ≠ "advanced\n" →
        fan_mode_store ec addr m1 m2 m3 buf count = (-EINVAL, [])) := by
  refine ⟨?_, ?_, ?_, ?_, ?_, ?_, ?_, ?_, ?_, ?_, ?_, ?_, ?_, ?_, ?_, ?_, ?_, ?_, ?_, ?_, ?_⟩
  · intro h
    simp only [webcam_show, h]
    repeat' split
    all_goals exact ⟨_, rfl⟩
  · intro h h1 h2
    simp [webcam_show, h, h1, h2]
  · intro h1 h2 h3 h4
    simp [webcam_store, tryWrite, streq_false buf "on" h1 h2,
      streq_false buf "off" h3 h4, finish_reject]
  · intro h
    simp only [fn_key_show, h]
    repeat' split
    all_goals exact ⟨_, rfl⟩
  · intro h h1 h2
    simp [fn_key_show, h, h1, h2]
  · intro h1 h2 h3 h4
    simp [fn_key_store, tryWrite, streq_false buf "left" h1 h2,
      streq_false buf "right" h3 h4, finish_reject]
  · intro h
    simp only [win_key_show, h]
    repeat' split
    all_goals exact ⟨_, rfl⟩
  · intro h h1 h2
    simp [win_key_show, h, h1, h2]
  · intro h1 h2 h3 h4
    simp [win_key_store, tryWrite, streq_false buf "left" h1 h2,
      streq_false buf "right" h3 h4, finish_reject]
  · intro h
    simp only [battery_mode_show, h]
    repeat' split
    all_goals exact ⟨_, rfl⟩
  · intro h h1 h2 h3
    simp [battery_mode_show, h, h1, h2, h3]
  · intro h1 h2 h3 h4 h5 h6
    simp [battery_mode_store, tryWrite, streq_false buf "max" h1 h2,
      streq_false buf "medium" h3 h4, streq_false buf "min" h5 h6, finish_reject]
  · intro h
    simp only [cooler_boost_show, h]
    repeat' split
    all_goals exact ⟨_, rfl⟩
  · intro h h1 h2
    simp [cooler_boost_show, h, h1, h2]
  · intro h1 h2 h3 h4
    simp [cooler_boost_store, tryWrite, streq_false buf "on" h1 h2,
      streq_false buf "off" h3 h4, finish_reject]
  · intro h
    simp only [shift_mode_show, h]
    repeat' split
    all_goals exact ⟨_, rfl⟩
  · intro h h1 h2 h3 h4
    simp [shift_mode_show, h, h1, h2, h3, h4]
  · intro h1 h2 h3 h4 h5 h6 h7 h8
    simp [shift_mode_store, tryWrite, streq_false buf "performance" h1 h2,
      streq_false buf "balanced" h3 h4, streq_false buf "eco" h5 h6,
      streq_false buf "off" h7 h8, finish_reject]
  · intro h
    simp only [fan_mode_show, h]
    repeat' split
    all_goals exact ⟨_, rfl⟩
  · intro h h1 h2 h3
    simp [fan_mode_show, h, h1, h2, h3]
  · intro h1 h2 h3 h4 h5 h6
    simp [fan_mode_store, tryWrite, streq_false buf "silent" h1 h2,
      streq_false buf "basic" h3 h4, streq_false buf "advanced" h5 h6, finish_reject]

/-- Transport used by the witness of C4: every read returns the byte 7,
which is outside all the code sets chosen there; writes succeed. -/
def ecEnumW : EC where
  read := fun _ => Except.ok 7
  write := fun _ _ => Except.ok ()

theorem c4_enum_codecs_witness :
    (∃ l, webcam_show ecEnumW 0 1 2 = Except.ok l)
    ∧ webcam_show ecEnumW 0 1 2 = Except.ok (Logical.unknown 7)
    ∧ webcam_store ecEnumW 0 1 2 "bogus" 5 = (-EINVAL, [])
    ∧ (∃ l, fn_key_show ecEnumW 0 1 2 = Except.ok l)
    ∧ fn_key_show ecEnumW 0 1 2 = Except.ok (Logical.unknown 7)
    ∧ fn_key_store ecEnumW 0 1 2 "bogus" 5 = (-EINVAL, [])
    ∧ (∃ l, win_key_show ecEnumW 0 1 2 = Except.ok l)
    ∧ win_key_show ecEnumW 0 1 2 = Except.ok (Logical.unknown 7)
    ∧ win_key_store ecEnumW 0 1 2 "bogus" 5 = (-EINVAL, [])
    ∧ (∃ l, battery_mode_show ecEnumW 0 1 2 3 = Except.ok l)
    ∧ battery_mode_show ecEnumW 0 1 2 3 = Except.ok (Logical.unknown 7)
    ∧ battery_mode_store ecEnumW 0 1 2 3 "bogus" 5 = (-EINVAL, [])
    ∧ (∃ l, cooler_boost_show ecEnumW 0 1 2 = Except.ok l)
    ∧ cooler_boost_show ecEnumW 0 1 2 = Except.ok (Logical.unknown 7)
    ∧ cooler_boost_store ecEnumW 0 1 2 "bogus" 5 = (-EINVAL, [])
    ∧ (∃ l, shift_mode_show ecEnumW 0 1 2 3 4 = Except.ok l)
    ∧ shift_mode_show ecEnumW 0 1 2 3 4 = Except.ok (Logical.unknown 7)
    ∧ shift_mode_store ecEnumW 0 1 2 3 4 "bogus" 5 = (-EINVAL, [])
    ∧ (∃ l, fan_mode_show ecEnumW 0 1 2 3 = Except.ok l)
    ∧ fan_mode_show ecEnumW 0 1 2 3 = Except.ok (Logical.unknown 7)
    ∧ fan_mode_store ecEnumW 0 1 2 3 "bogus" 5 = (-EINVAL, []) := by
  obtain ⟨a1, a2, a3, a4, a5, a6, a7, a8, a9, a10, a11, a12, a13, a14, a15, a16, a17,
    a18, a19, a20, a21⟩ :=
    c4_enum_codecs ecEnumW 0 7 5 "bogus" 1 2 1 2 1 2 1 2 3 1 2 1 2 3 4 1 2 3
  exact ⟨a1 rfl, a2 rfl (by decide) (by decide),
    a3 (by decide) (by decide) (by decide) (by decide),
    a4 rfl, a5 rfl (by decide) (by decide),
    a6 (by decide) (by decide) (by decide) (by decide),
    a7 rfl, a8 rfl (by decide) (by decide),
    a9 (by decide) (by decide) (by decide) (by decide),
    a10 rfl, a11 rfl (by decide) (by decide) (by decide),
    a12 (by decide) (by decide) (by decide) (by decide) (by decide) (by decide),
    a13 rfl, a14 rfl (by decide) (by decide),
    a15 (by decide) (by decide) (by decide) (by decide),
    a16 rfl, a17 rfl (by decide) (by decide) (by decide) (by decide),
    a18 (by decide) (by decide) (by decide) (by decide) (by decide) (by decide)
      (by decide) (by decide),
    a19 rfl, a20 rfl (by decide) (by decide) (by decide),
    a21 (by decide) (by decide) (by decide) (by decide) (by decide) (by decide)⟩

lemma tryWrite_snd (ec : EC) (addr : Nat) (c : Bool) (v : Nat) (r : Int × List (Nat × Nat)) :
    (tryWrite ec addr c v r).2 = r.2 ++ (if c then [(addr, v)] else []) := by
  unfold tryWrite
  cases c <;> simp

lemma finishStore_snd (r : Int × List (Nat × Nat)) (count : Nat) :
    (finishStore r count).2 = r.2 := by
  unfold finishStore
  split <;> rfl

lemma ite_append_ne_two (c1 c2 : Bool) (x y : (Nat × Nat)) :
    ((if c1 then [x] else []) ++ (if c2 then [y] else []) ≠ ([] : List (Nat × Nat)))
      ↔ (c1 = true ∨ c2 = true) := by
  cases c1 <;> cases c2 <;> simp

lemma ite_append_ne_three (c1 c2 c3 : Bool) (x y z : (Nat × Nat)) :
    ((if c1 then [x] else []) ++ (if c2 then [y] else []) ++ (if c3 then [z] else [])
        ≠ ([] : List (Nat × Nat)))
      ↔ (c1 = true ∨ c2 = true ∨ c3 = true) := by
  cases c1 <;> cases c2 <;> cases c3 <;> simp

lemma ite_append_ne_four (c1 c2 c3 c4 : Bool) (x y z w : (Nat × Nat)) :
    ((if c1 then [x] else []) ++ (if c2 then [y] else []) ++ (if c3 then [z] else [])
        ++ (if c4 then [w] else []) ≠ ([] : List (Nat × Nat)))
      ↔ (c1 = true ∨ c2 = true ∨ c3 = true ∨ c4 = true) := by
  cases c1 <;> cases c2 <;> cases c3 <;> cases c4 <;> simp

/-- C9: the streq macro accepts a string exactly when it equals the
compared name with or without one trailing newline, and consequently each
enumeration store callback attempts a transport write (its write trace is
nonempty) exactly when the input is a documented logical name, optionally
followed by one newline.  Any other leading or trailing characters make
the input compare unequal and are rejected. -/
theorem c9_newline_tolerant_matching (ec : EC) (addr count : Nat) (buf : String)
    (w1 w2 f1 f2 k1 k2 b1 b2 b3 cb1 cb2 s1 s2 s3 s4 m1 m2 m3 : Nat) :
    (∀ x y : String, streq x y = true ↔ (x = y ∨ x = y ++ "\n"))
    ∧ ((webcam_store ec addr w1 w2 buf count).2 ≠ []
        ↔ (buf = "on" ∨ buf = "on\n" ∨ buf = "off" ∨ buf = "off\n"))
    ∧ ((fn_key_store ec addr f1 f2 buf count).2 ≠ []
        ↔ (buf = "left" ∨ buf = "left\n" ∨ buf = "right" ∨ buf = "right\n"))
    ∧ ((win_key_store ec addr k1 k2 buf count).2 ≠ []
        ↔ (buf = "left" ∨ buf = "left\n" ∨ buf = "right" ∨ buf = "right\n"))
    ∧ ((battery_mode_store ec addr b1 b2 b3 buf count).2 ≠ []
        ↔ (buf = "max" ∨ buf = "max\n" ∨ buf = "medium" ∨ buf = "medium\n"
            ∨ buf = "min" ∨ buf = "min\n"))
    ∧ ((cooler_boost_store ec addr cb1 cb2 buf count).2 ≠ []
        ↔ (buf = "on" ∨ buf = "on\n" ∨ buf = "off" ∨ buf = "off\n"))
    ∧ ((shift_mode_store ec addr s1 s2 s3 s4 buf count).2 ≠ []
        ↔ (buf = "performance" ∨ buf = "performance\n" ∨ buf = "balanced"
            ∨ buf = "balanced\n" ∨ buf = "eco" ∨ buf = "eco\n"
            ∨ buf = "off" ∨ buf = "off\n"))
    ∧ ((fan_mode_store ec addr m1 m2 m3 buf count).2 ≠ []
        ↔ (buf = "silent" ∨ buf = "silent\n" ∨ buf = "basic" ∨ buf = "basic\n"
            ∨ buf = "advanced" ∨ buf = "advanced\n")) := by
  refine ⟨streq_true_iff, ?_, ?_, ?_, ?_, ?_, ?_, ?_⟩
  · rw [webcam_store, finishStore_snd, tryWrite_snd, tryWrite_snd]
    simp only [List.nil_append]
    rw [ite_append_ne_two, streq_true_iff, streq_true_iff]
    tauto
  · rw [fn_key_store, finishStore_snd, tryWrite_snd, tryWrite_snd]
    simp only [List.nil_append]
    rw [ite_append_ne_two, streq_true_iff, streq_true_iff]
    tauto
  · rw [win_key_store, finishStore_snd, tryWrite_snd, tryWrite_snd]
    simp only [List.nil_append]
    rw [ite_append_ne_two, streq_true_iff, streq_true_iff]
    tauto
  · rw [battery_mode_store, finishStore_snd, tryWrite_snd, tryWrite_snd, tryWrite_snd]
    simp only [List.nil_append]
    rw [ite_append_ne_three, streq_true_iff, streq_true_iff, streq_true_iff]
    tauto
  · rw [cooler_boost_store, finishStore_snd, tryWrite_snd, tryWrite_snd]
    simp only [List.nil_append]
    rw [ite_append_ne_two, streq_true_iff, streq_true_iff]
    tauto
  · rw [shift_mode_store, finishStore_snd, tryWrite_snd, tryWrite_snd, tryWrite_snd,
      tryWrite_snd]
    simp only [List.nil_append]
    rw [ite_append_ne_four, streq_true_iff, streq_true_iff, streq_true_iff, streq_true_iff]
    tauto
  · rw [fan_mode_store, finishStore_snd, tryWrite_snd, tryWrite_snd, tryWrite_snd]
    simp only [List.nil_append]
    rw [ite_append_ne_three, streq_true_iff, streq_true_iff, streq_true_iff]
    tauto

/-- C6: every writable attribute rejects an illegal logical value before
any transport write is issued, so the register state is unchanged on a
validation error: a charge threshold whose offset-adjusted byte falls
outside [MIN, MAX] (or whose input does not fit in a byte), a fan
percentage above 100 (or not fitting in a byte), and an unlisted
enumeration name all produce a negative status together with an empty
write trace. -/
theorem c6_validation_before_transport (ec : EC) (addr offset MIN MAX n count : Nat)
    (buf : String) (w1 w2 : Nat) :
    (n ≤ 255 → ((n + offset) % 256 < MIN ∨ (n + offset) % 256 > MAX) →
      charge_control_threshold_store ec addr offset MIN MAX n count = (-EINVAL, []))
    ∧ (255 < n →
      charge_control_threshold_store ec addr offset MIN MAX n count = (-ERANGE, []))
    ∧ (100 < n → n ≤ 255 →
      cpu_basic_fan_speed_store ec addr n count = (-EINVAL, []))
    ∧ (255 < n →
      cpu_basic_fan_speed_store ec addr n count = (-ERANGE, []))
    ∧ (buf ≠ "on" → buf ≠ "on\n" → buf ≠ "off" → buf ≠ "off\n" →
      webcam_store ec addr w1 w2 buf count = (-EINVAL, [])) := by
  refine ⟨?_, ?_, ?_, ?_, ?_⟩
  · intro hn hout
    have h255 : ¬ n > 255 := by omega
    simp only [charge_control_threshold_store, if_neg h255, if_pos hout]
  · intro hn
    simp only [charge_control_threshold_store, if_pos hn]
  · intro h100 hn
    have h255 : ¬ n > 255 := by omega
    simp only [cpu_basic_fan_speed_store, if_neg h255, if_pos h100]
  · intro hn
    simp only [cpu_basic_fan_speed_store, if_pos hn]
  · intro h1 h2 h3 h4
    simp [webcam_store, tryWrite, streq_false buf "on" h1 h2,
      streq_false buf "off" h3 h4, finish_reject]

theorem c6_validation_before_transport_witness :
    charge_control_threshold_store ecEnumW 0 128 138 228 5 9 = (-EINVAL, [])
    ∧ charge_control_threshold_store ecEnumW 0 128 138 228 300 9 = (-ERANGE, [])
    ∧ cpu_basic_fan_speed_store ecEnumW 0 101 9 = (-EINVAL, [])
    ∧ cpu_basic_fan_speed_store ecEnumW 0 999 9 = (-ERANGE, [])
    ∧ webcam_store ecEnumW 0 1 2 "enable" 9 = (-EINVAL, []) := by
  have h1 := c6_validation_before_transport ecEnumW 0 128 138 228 5 9 "enable" 1 2
  have h2 := c6_validation_before_transport ecEnumW 0 128 138 228 300 9 "enable" 1 2
  have h3 := c6_validation_before_transport ecEnumW 0 0 0 0 101 9 "enable" 1 2
  have h4 := c6_validation_before_transport ecEnumW 0 0 0 0 999 9 "enable" 1 2
  exact ⟨h1.1 (by decide) (by decide), h2.2.1 (by decide),
    h3.2.2.1 (by decide) (by decide), h4.2.2.2.1 (by decide),
    h1.2.2.2.2 (by decide) (by decide) (by decide) (by decide)⟩

/-- Embedding of kbd_bl_sysfs_get: read the backlight register; the LED
class brightness_get interface returns a plain brightness value, and on a
failing transport read the function returns 0 instead of an error. -/
def kbd_bl_sysfs_get (ec : EC) (addr mask : Nat) : Nat :=
  match ec.read addr with
  | Except.error _ => 0
  | Except.ok rdata => rdata &&& mask

/-- Embedding of cpu_realtime_temperature_show (also the shape of
gpu_realtime_temperature_show and gpu_realtime_fan_speed_show): read one
register and print it. -/
def cpu_realtime_temperature_show (ec : EC) (addr : Nat) : Except Int Nat :=
  match ec.read addr with
  | Except.error e => Except.error e
  | Except.ok rdata => Except.ok rdata

/-- Transport whose every read faults with errno -5. -/
def ecFail5 : EC where
  read := fun _ => Except.error (-5)
  write := fun _ _ => Except.ok ()

/-- Transport whose every read succeeds with the byte 0. -/
def ecZero : EC where
  read := fun _ => Except.ok 0
  write := fun _ _ => Except.ok ()

/-- Counterexample to C5 as stated: the keyboard backlight level read does
not propagate a failing transport read; it returns the fabricated
brightness 0, indistinguishable from a successful read of the byte 0. -/
theorem c5_counterexample :
    ecFail5.read 0 = Except.error (-5)
    ∧ kbd_bl_sysfs_get ecFail5 0 3 = 0
    ∧ kbd_bl_sysfs_get ecZero 0 3 = 0 := by
  exact ⟨rfl, rfl, rfl⟩

/-- C5 amended: every show operation propagates a transport read fault
verbatim to its caller, and so does the sequential reader; the one
exception is the keyboard backlight level read, whose LED-class interface
has no error channel: on a failing transport read it returns brightness 0
instead of the fault. -/
theorem c5_fault_propagation (ec : EC) (addr offset mask : Nat) (e : Int)
    (w1 w2 f1 f2 k1 k2 b1 b2 b3 cb1 cb2 s1 s2 s3 s4 m1 m2 m3 : Nat)
    (h : ec.read addr = Except.error e) :
    webcam_show ec addr w1 w2 = Except.error e
    ∧ fn_key_show ec addr f1 f2 = Except.error e
    ∧ win_key_show ec addr k1 k2 = Except.error e
    ∧ battery_mode_show ec addr b1 b2 b3 = Except.error e
    ∧ cooler_boost_show ec addr cb1 cb2 = Except.error e
    ∧ shift_mode_show ec addr s1 s2 s3 s4 = Except.error e
    ∧ fan_mode_show ec addr m1 m2 m3 = Except.error e
    ∧ charge_control_threshold_show ec addr offset = Except.error e
    ∧ cpu_basic_fan_speed_show ec addr = Except.error e
    ∧ cpu_realtime_temperature_show ec addr = Except.error e
    ∧ (∀ n, (ec_read_seq ec addr (n + 1)).1 = e)
    ∧ kbd_bl_sysfs_get ec addr mask = 0 := by
  refine ⟨?_, ?_, ?_, ?_, ?_, ?_, ?_, ?_, ?_, ?_, ?_, ?_⟩
  · simp [webcam_show, h]
  · simp [fn_key_show, h]
  · simp [win_key_show, h]
  · simp [battery_mode_show, h]
  · simp [cooler_boost_show, h]
  · simp [shift_mode_show, h]
  · simp [fan_mode_show, h]
  · simp [charge_control_threshold_show, h]
  · simp [cpu_basic_fan_speed_show, h]
  · simp [cpu_realtime_temperature_show, h]
  · intro n
    simp [ec_read_seq, h]
  · simp [kbd_bl_sysfs_get, h]

theorem c5_fault_propagation_witness :
    webcam_show ecFail5 0 1 2 = Except.error (-5)
    ∧ charge_control_threshold_show ecFail5 0 128 = Except.error (-5)
    ∧ cpu_basic_fan_speed_show ecFail5 0 = Except.error (-5)
    ∧ (ec_read_seq ecFail5 0 8).1 = -5
    ∧ kbd_bl_sysfs_get ecFail5 0 3 = 0 := by
  have h := c5_fault_propagation ecFail5 0 128 3 (-5) 1 2 1 2 1 2 1 2 3 1 2 1 2 3 4 1 2 3 rfl
  exact ⟨h.1, h.2.2.2.2.2.2.2.1, h.2.2.2.2.2.2.2.2.1, h.2.2.2.2.2.2.2.2.2.2.1 7,
    h.2.2.2.2.2.2.2.2.2.2.2⟩

/-- Value of a list of decimal digit characters. -/
def digitsToNat (ds : List Char) : Nat :=
  ds.foldl (fun a c => 10 * a + (c.toNat - 48)) 0

/-- Take at most w leading decimal digits (the field width limit of a
scanf conversion). -/
def takeDigits : Nat → List Char → List Char × List Char
  | 0, cs => ([], cs)
  | _ + 1, [] => ([], [])
  | w + 1, c :: cs =>
    if c.isDigit then
      let p := takeDigits w cs
      (c :: p.1, p.2)
    else ([], c :: cs)

/-- One %wd conversion of sscanf: skip leading whitespace, accept an
optional sign, then read at most w characters of digits (the sign counts
against the width); fail if no digit is present. -/
def scanInt (w : Nat) (cs : List Char) : Option (Int × List Char) :=
  let cs0 := cs.dropWhile Char.isWhitespace
  match cs0 with
  | '-' :: rest =>
    let p := takeDigits (w - 1) rest
    if p.1 = [] then none else some (-(digitsToNat p.1 : Int), p.2)
  | '+' :: rest =>
    let p := takeDigits (w - 1) rest
    if p.1 = [] then none else some ((digitsToNat p.1 : Int), p.2)
  | _ =>
    let p := takeDigits w cs0
    if p.1 = [] then none else some ((digitsToNat p.1 : Int), p.2)

/-- An ordinary character in a scanf format: the next input character must
match it exactly. -/
def scanLit (c : Char) (cs : List Char) : Option (List Char) :=
  match cs with
  | [] => none
  | c2 :: rest => if c2 = c then some rest else none

/-- The sscanf call of fw_release_date_show for the date buffer, format
%02d%02d%04d: conversions are assigned in order until the first failure;
fields not assigned stay unset, and no error is reported. -/
def scanDate (cs : List Char) : Option Int × Option Int × Option Int :=
  match scanInt 2 cs with
  | none => (none, none, none)
  | some (m, cs1) =>
    match scanInt 2 cs1 with
    | none => (some m, none, none)
    | some (d, cs2) =>
      match scanInt 4 cs2 with
      | none => (some m, some d, none)
      | some (y, _) => (some m, some d, some y)

/-- The sscanf call of fw_release_date_show for the time buffer, format
%02d:%02d:%02d. -/
def scanTime (cs : List Char) : Option Int × Option Int × Option Int :=
  match scanInt 2 cs with
  | none => (none, none, none)
  | some (h, cs1) =>
    match scanLit ':' cs1 with
    | none => (some h, none, none)
    | some cs2 =>
      match scanInt 2 cs2 with
      | none => (some h, none, none)
      | some (m, cs3) =>
        match scanLit ':' cs3 with
        | none => (some h, some m, none)
        | some cs4 =>
          match scanInt 2 cs4 with
          | none => (some h, some m, none)
          | some (s, _) => (some h, some m, some s)

/-- The six int variables fw_release_date_show prints.  A field is none
when the corresponding sscanf conversion never assigned it (in C the
variable would remain uninitialized; the sscanf return value is not
checked). -/
structure FwReleaseDate where
  year : Option Int
  month : Option Int
  day : Option Int
  hour : Option Int
  minute : Option Int
  second : Option Int
deriving DecidableEq

/-- Embedding of fw_release_date_show: sequentially read the date field
and the time field (propagating transport faults), run the two sscanf
calls, and render whatever was parsed; the sscanf results are not
checked, so malformed buffers still produce a success. -/
def fw_release_date_show (ec : EC) (dateAddr timeAddr : Nat) : Except Int FwReleaseDate :=
  let rd := ec_read_seq ec dateAddr MSI_EC_FW_DATE_LENGTH
  if rd.1 < 0 then Except.error rd.1
  else
    let md := scanDate (rd.2.map Char.ofNat)
    let rt := ec_read_seq ec timeAddr MSI_EC_FW_TIME_LENGTH
    if rt.1 < 0 then Except.error rt.1
    else
      let ts := scanTime (rt.2.map Char.ofNat)
      Except.ok ⟨md.2.2, md.1, md.2.1, ts.1, ts.2.1, ts.2.2⟩

/-- The byte values of a string, for building concrete register files. -/
def strBytes (s : String) : List Nat := s.toList.map Char.toNat

deriving instance DecidableEq for Except

/-- Transport holding the date text 07042024 at addresses 0..7 and the
time text 13:05:59 at addresses 100..107. -/
def ecGoodFw : EC where
  read := fun a =>
    if a < 8 then Except.ok ((strBytes "07042024").getD a 0)
    else if 100 ≤ a ∧ a < 108 then Except.ok ((strBytes "13:05:59").getD (a - 100) 0)
    else Except.error (-5)
  write := fun _ _ => Except.ok ()

/-- Transport holding the non-numeric date text FWDATE!! at addresses 0..7
and the time text 13:05:59 at addresses 100..107. -/
def ecBadFw : EC where
  read := fun a =>
    if a < 8 then Except.ok ((strBytes "FWDATE!!").getD a 0)
    else if 100 ≤ a ∧ a < 108 then Except.ok ((strBytes "13:05:59").getD (a - 100) 0)
    else Except.error (-5)
  write := fun _ _ => Except.ok ()

/-- Counterexample to C7 as stated: a date buffer whose digit positions
hold non-numeric characters does not make the decode fail; the callback
still returns success, with the date fields left unassigned, because the
sscanf return value is ignored. -/
theorem c7_counterexample :
    fw_release_date_show ecBadFw 0 100 =
      Except.ok ⟨none, none, none, some 13, some 5, some 59⟩ := by
  rfl

/-- C7 amended: the date bytes 07042024 are parsed as month 7, day 4,
year 2024 (MMDDYYYY) and the time bytes 13:05:59 as hour 13, minute 5,
second 59; however, decoding a field whose bytes contain non-numeric
characters does not fail: once both sequential reads succeed the callback
always returns success, with conversions after the first malformed one
left unassigned (the sscanf return value is never checked). -/
theorem c7_packed_date_decode :
    (fw_release_date_show ecGoodFw 0 100 =
      Except.ok ⟨some 2024, some 7, some 4, some 13, some 5, some 59⟩)
    ∧ (∀ (ec : EC) (dA tA : Nat) (g : Nat → Nat),
        (∀ k, k < MSI_EC_FW_DATE_LENGTH → ec.read (dA + k) = Except.ok (g (dA + k))) →
        (∀ k, k < MSI_EC_FW_TIME_LENGTH → ec.read (tA + k) = Except.ok (g (tA + k))) →
        ∃ r, fw_release_date_show ec dA tA = Except.ok r) := by
  constructor
  · rfl
  · intro ec dA tA g hd ht
    have h1 := ec_read_seq_all_ok ec g MSI_EC_FW_DATE_LENGTH dA hd
    have h2 := ec_read_seq_all_ok ec g MSI_EC_FW_TIME_LENGTH tA ht
    simp only [fw_release_date_show, h1, h2]
    norm_num

/-- The bytes ecGoodFw serves, as a function, for the witness of C7. -/
def fwBytesW : Nat → Nat := fun a =>
  if a < 8 then (strBytes "07042024").getD a 0
  else (strBytes "13:05:59").getD (a - 100) 0

theorem c7_packed_date_decode_witness :
    ∃ r, fw_release_date_show ecGoodFw 0 100 = Except.ok r := by
  exact c7_packed_date_decode.2 ecGoodFw 0 100 fwBytesW (by decide) (by decide)

/-- The value of the u8 loop counter of ec_read_seq after n completed
iterations: i is declared u8, so incrementing it wraps modulo 256. -/
def ec_read_seq_counter (n : Nat) : Nat := n % 256

/-- The loop guard of ec_read_seq before iteration n: the u8 counter is
promoted to int and compared against the int length, i < len. -/
def ec_read_seq_guard (len n : Nat) : Bool := decide (ec_read_seq_counter n < len)

/-- C10: with all reads succeeding, the ec_read_seq loop performs exactly
len reads only under the precondition len at most 255: the guard then
holds for the first len iterations and fails right after.  For every
len at least 256 the wrapped u8 counter never reaches len, so the guard
holds before every iteration and the loop never exits.  The three
in-repository call sites pass the field length constants, all of which
satisfy the precondition. -/
theorem c10_loop_counter_wrap (len : Nat) :
    (len ≤ 255 →
      (∀ n, n < len → ec_read_seq_guard len n = true) ∧ ec_read_seq_guard len len = false)
    ∧ (256 ≤ len → ∀ n, ec_read_seq_guard len n = true)
    ∧ MSI_EC_FW_VERSION_LENGTH ≤ 255
    ∧ MSI_EC_FW_DATE_LENGTH ≤ 255
    ∧ MSI_EC_FW_TIME_LENGTH ≤ 255 := by
  refine ⟨?_, ?_, by decide, by decide, by decide⟩
  · intro hlen
    constructor
    · intro n hn
      have h1 : n % 256 = n := Nat.mod_eq_of_lt (by omega)
      simp [ec_read_seq_guard, ec_read_seq_counter, h1, hn]
    · have h1 : len % 256 = len := Nat.mod_eq_of_lt (by omega)
      simp [ec_read_seq_guard, ec_read_seq_counter, h1]
  · intro hlen n
    have h1 : n % 256 < 256 := Nat.mod_lt n (by omega)
    simp [ec_read_seq_guard, ec_read_seq_counter]
    omega

theorem c10_loop_counter_wrap_witness :
    ((∀ n, n < 12 → ec_read_seq_guard 12 n = true) ∧ ec_read_seq_guard 12 12 = false)
    ∧ ec_read_seq_guard 300 256 = true := by
  exact ⟨(c10_loop_counter_wrap 12).1 (by decide), (c10_loop_counter_wrap 300).2.1 (by decide) 256⟩
